import Mathlib

/-!
Verification of the NASA-MCP-Server tool-dispatch gateway.

The development embeds, as executable Lean functions, the parts of the
repository the verified properties speak about:

* `src/src/nasa_mcp/server_old.py`: the tool registry announced by
  `handle_list_tools`, the `tools/call` dispatcher `handle_call_tool`, and
  the HTTP binding `handle_mcp` (POST path).
* `src/server/tools/APOD_tool.py`, `mars_img.py`, `earth_img.py`: the pure
  argument-validation / URL-building prefix of each adapter, embedded in
  full; the trailing `async with httpx ...` block of each adapter is
  abstracted by an oracle `net : String → String` keyed by the request URL
  (every such block is wrapped in a catch-all `except Exception` that
  returns a string, so the tail is a total String-valued function of the
  URL and the network's behaviour).
* `src/server/tools/NeoWs_tool.py`: the validation prefix AND the
  request phase's outcome handling (the `error_message` check of line
  70-71 producing `"API Error: ..."`, the timeout / HTTPStatusError /
  generic exception handlers and their exact strings) are embedded; only
  the network interaction itself and the success-formatting of the feed
  payload remain an oracle.
* `src/server/tools/index.py`: the `get_add` tool body.
* `src/server/tools/GIBS_tool.py`, `image_analysis.py`: adapters none of
  the verified properties inspect internally; they are total
  string-valued (resp. content-list-valued) functions with catch-all
  exception handlers, so they are abstracted wholesale as oracle fields
  of `AdapterEnv`.

Python `None` is modelled by `Option.none`; JSON argument values by `JVal`;
Python string truthiness (`if s:`) by an explicit emptiness test.
-/

/-- A JSON scalar as it arrives in the `arguments` mapping of a
`tools/call` request: a string, an integer, or JSON `null`. -/
inductive JVal : Type
  | jstr (s : String)
  | jint (n : Int)
  | jnull
deriving DecidableEq, Repr

/-- The `arguments` mapping of a `tools/call` request
(a Python dict, modelled as an association list; `get?` takes the
first binding, and a Python dict has at most one per key). -/
def Args : Type := List (String × JVal)

/-- Python `arguments.get(k)` returning `None` when absent. -/
def Args.get? (a : Args) (k : String) : Option JVal :=
  (List.find? (fun p => p.1 = k) a).map (fun p => p.2)

/-- `arguments.get(k)`: the string value when the key holds a string,
`none` when the key is absent or holds JSON null. -/
def Args.getStr? (a : Args) (k : String) : Option String :=
  match a.get? k with
  | some (.jstr s) => some s
  | _ => none

/-- `arguments.get(k)`: the integer value when the key holds an integer,
`none` when the key is absent or holds JSON null. -/
def Args.getInt? (a : Args) (k : String) : Option Int :=
  match a.get? k with
  | some (.jint n) => some n
  | _ => none

/-- Python `arguments.get(k, d)` for an integer-typed parameter with
default `d`. -/
def Args.getIntD (a : Args) (k : String) (d : Int) : Int :=
  match a.get? k with
  | some (.jint n) => n
  | _ => d

/-- Python `arguments.get(k, d)` for a string-typed parameter with
default `d`. -/
def Args.getStrD (a : Args) (k : String) (d : String) : String :=
  match a.get? k with
  | some (.jstr s) => s
  | _ => d

/-- Python truthiness of an optional string: `None` and `""` are falsy. -/
def truthyStr : Option String → Bool
  | none => false
  | some s => !(s = "")

/-- Python truthiness of a `JVal` (`if not image_url:`):
`None`, `""` and `0` are falsy. -/
def JVal.truthy : JVal → Bool
  | .jstr s => !(s = "")
  | .jint n => !(n = 0)
  | .jnull => false

/-- A string made of decimal digits only, and non-empty. -/
def allDigits (s : String) : Bool :=
  decide (0 < s.length) && s.all Char.isDigit

/-- Gregorian leap year, as Python's `datetime` computes it. -/
def isLeap (y : Nat) : Bool :=
  (y % 4 = 0 && !(y % 100 = 0)) || y % 400 = 0

/-- Length of month `m` of year `y` in days. -/
def daysInMonth (y m : Nat) : Nat :=
  if m = 2 then (if isLeap y then 29 else 28)
  else if m = 4 || m = 6 || m = 9 || m = 11 then 30
  else 31

/-- Model of `datetime.datetime.strptime(s, "%Y-%m-%d")` succeeding:
exactly `YYYY-MM-DD` with a four-digit year (CPython's `%Y` pattern is
four digits), a one- or two-digit month in `1..12`, a one- or two-digit
day within the month's length, year at least 1, and no leftover text. -/
def strptimeYmd (s : String) : Bool :=
  match s.splitOn "-" with
  | [y, m, d] =>
    allDigits y && y.length = 4 && allDigits m && decide (m.length ≤ 2) &&
    allDigits d && decide (d.length ≤ 2) &&
    (let yn := (y.toNat?).getD 0
     let mn := (m.toNat?).getD 0
     let dn := (d.toNat?).getD 0
     decide (1 ≤ yn) && decide (1 ≤ mn) && decide (mn ≤ 12) &&
     decide (1 ≤ dn) && decide (dn ≤ daysInMonth yn mn))
  | _ => false

/-- `NASA_API_KEY = os.getenv("NASA_API_KEY", "DEMO_KEY")`, at its
default value (no environment override is modelled). -/
def NASA_API_KEY : String := "DEMO_KEY"

/-- `APOD_API` base URL from `APOD_tool.py`. -/
def APOD_API : String := "https://api.nasa.gov/planetary/apod?"

/-- `base_api` Mars rover photos URL from `mars_img.py`. -/
def MARS_API : String := "https://api.nasa.gov/mars-photos/api/v1/rovers/curiosity/photos?"

/-- The `param_url` accumulation loop shared by the adapters:
`for k, v in params.items(): param_url += f"{k}={v}&"`. -/
def paramUrl (params : List (String × String)) : String :=
  params.foldl (fun acc p => acc ++ p.1 ++ "=" ++ p.2 ++ "&") ""

/-- The parameter-validation prefix of
`get_astronomy_picture_of_the_day_tool_defnition` (`APOD_tool.py`,
lines 16-52): either an early-returned `"Error: ..."` string, or the
`params` dictionary (in insertion order) handed to the request phase. -/
def apodValidateParams (date start_date end_date : Option String)
    (count : Option Int) : Except String (List (String × String)) :=
  match count with
  | some c =>
    if truthyStr date && (truthyStr start_date || truthyStr end_date) then
      .error "Error: count cannot be used with date, start_date, or end_date"
    else if c ≤ 0 then
      .error "Error: count must be a positive integer"
    else
      .ok [("count", toString c)]
  | none =>
    if truthyStr start_date || truthyStr end_date then
      if truthyStr date then
        .error "Error: date cannot be used with start_date or end_date"
      else
        let afterStart : Except String (List (String × String)) :=
          match start_date with
          | some sd =>
            if sd = "" then .ok []
            else if strptimeYmd sd then .ok [("start_date", sd)]
            else .error "Error: start_date must be in YYYY-MM-DD format"
          | none => .ok []
        match afterStart with
        | .error e => .error e
        | .ok ps =>
          match end_date with
          | some ed =>
            if ed = "" then .ok ps
            else if strptimeYmd ed then .ok (ps ++ [("end_date", ed)])
            else .error "Error: end_date must be in YYYY-MM-DD format"
          | none => .ok ps
    else
      match date with
      | some d =>
        if d = "" then .ok []
        else if strptimeYmd d then .ok [("date", d)]
        else .error "Error: date must be in YYYY-MM-DD format"
      | none => .ok []

/-- `get_astronomy_picture_of_the_day_tool_defnition` (`APOD_tool.py`):
validation prefix embedded above; the `httpx` request/formatting tail is
the oracle `net`, a total function of the request URL (the tail ends in a
catch-all `except Exception` returning a string). -/
def get_astronomy_picture_of_the_day_tool_defnition
    (net : String → String) (date start_date end_date : Option String)
    (count : Option Int) : String :=
  match apodValidateParams date start_date end_date count with
  | .error e => e
  | .ok params => net (APOD_API ++ paramUrl params ++ "api_key=" ++ NASA_API_KEY)

/-- The valid Mars rover camera names (`mars_img.py`, lines 50-53). -/
def validCameras : List String :=
  ["FHAZ", "RHAZ", "MAST", "CHEMCAM", "MAHLI",
   "MARDI", "NAVCAM", "PANCAM", "MINITES"]

/-- The parameter-validation prefix of `get_mars_image_definition`
(`mars_img.py`, lines 30-58): the mutually exclusive `sol`/`earth_date`
handling (with the `sol=1000` default) followed by camera validation. -/
def marsValidateParams (earth_date : Option String) (sol : Option Int)
    (camera : Option String) : Except String (List (String × String)) :=
  let afterDate : Except String (List (String × String)) :=
    match sol with
    | some s =>
      if s < 0 then .error "Error: sol must be a non-negative integer"
      else .ok [("sol", toString s)]
    | none =>
      if truthyStr earth_date then
        let ed := earth_date.getD ""
        if strptimeYmd ed then .ok [("earth_date", ed)]
        else .error "Error: earth_date must be in YYYY-MM-DD format"
      else .ok [("sol", "1000")]
  match afterDate with
  | .error e => .error e
  | .ok ps =>
    if truthyStr camera then
      let c := camera.getD ""
      let cu := c.toUpper
      if validCameras.contains cu then .ok (ps ++ [("camera", cu)])
      else .error ("Error: Invalid camera '" ++ c ++ "'. Valid options: "
        ++ String.intercalate ", " validCameras)
    else .ok ps

/-- `get_mars_image_definition` (`mars_img.py`): validation prefix
embedded above; the `httpx` request/formatting tail is the oracle `net`
(total, by its catch-all `except Exception`). -/
def get_mars_image_definition (net : String → String)
    (earth_date : Option String) (sol : Option Int)
    (camera : Option String) : String :=
  match marsValidateParams earth_date sol camera with
  | .error e => e
  | .ok params =>
    net (MARS_API ++ paramUrl params ++ "page=1&api_key=" ++ NASA_API_KEY)

/-- The pure prefix of `get_earth_image_definition` (`earth_img.py`,
lines 18-46): limit validation and capping, image-type validation, date
validation, and URL building. On success it yields the request URL
together with the (possibly capped) limit later used to slice the
response (`data[:limit]`). In the date branch the source splits the
already-`strptime`-checked date on `-` and re-joins the three parts with
`-`, which reproduces the date string itself. -/
def earthUrlAndLimit (earth_date ty : Option String) (limit : Int) :
    Except String (String × Int) :=
  if limit < 1 then .error "Error: limit must be at least 1"
  else
    let limit := if limit > 10 then 10 else limit
    let tyPart : Except String String :=
      if truthyStr ty then
        let t := ty.getD ""
        if ["natural", "enhanced", "aerosol", "cloud"].contains t.toLower then
          .ok (t.toLower ++ "/")
        else
          .error ("Error: Invalid type '" ++ t
            ++ "'. Valid options: 'natural', 'enhanced','aerosol', 'cloud'")
      else .ok "natural/"
    match tyPart with
    | .error e => .error e
    | .ok tp =>
      let url := "https://epic.gsfc.nasa.gov/api/" ++ tp
      if truthyStr earth_date then
        let d := earth_date.getD ""
        if strptimeYmd d then .ok (url ++ "date/" ++ d, limit)
        else .error "Error: earth_date must be in YYYY-MM-DD format"
      else .ok (url, limit)

/-- `get_earth_image_definition` (`earth_img.py`): pure prefix embedded
above; the `httpx` request/formatting tail is the oracle `net`, a total
function of the request URL and the capped limit (the tail ends in a
catch-all `except Exception` returning a string). -/
def get_earth_image_definition (net : String → Int → String)
    (earth_date ty : Option String) (limit : Int) : String :=
  match earthUrlAndLimit earth_date ty limit with
  | .error e => e
  | .ok ul => net ul.1 ul.2

/-- `NEOWS_API` base URL from `NeoWs_tool.py`. -/
def NEOWS_API : String := "https://api.nasa.gov/neo/rest/v1/feed?"

/-- The year, month and day fields of an (already `strptime`-validated)
`YYYY-MM-DD` string. -/
def ymdOf (s : String) : Nat × Nat × Nat :=
  match s.splitOn "-" with
  | [y, m, d] => ((y.toNat?).getD 0, (m.toNat?).getD 0, (d.toNat?).getD 0)
  | _ => (0, 0, 0)

/-- Serial day number of a Gregorian date (civil-from-days algorithm,
all arithmetic in `Nat`; valid for years ≥ 1, which `strptimeYmd`
guarantees). Differences of `rataDie` equal the `.days` of the
difference of the two Python `datetime`s. -/
def rataDie (ymd : Nat × Nat × Nat) : Nat :=
  let y := if ymd.2.1 ≤ 2 then ymd.1 - 1 else ymd.1
  let era := y / 400
  let yoe := y % 400
  let mp := (ymd.2.1 + 9) % 12
  let doy := (153 * mp + 2) / 5 + ymd.2.2 - 1
  let doe := yoe * 365 + yoe / 4 - yoe / 100 + doy
  era * 146097 + doe

/-- The parameter-validation prefix of `get_neo_feed_definition`
(`NeoWs_tool.py`, lines 22-48): limit positivity, date-format checks,
the 7-day range cap and the ordering check, with the params dictionary
built in source insertion order. -/
def neoValidateParams (start_date end_date : Option String)
    (limit_per_day : Int) : Except String (List (String × String)) :=
  if limit_per_day ≤ 0 then
    .error "Error: limit_per_day must be a positive integer"
  else if truthyStr start_date || truthyStr end_date then
    if truthyStr start_date then
      let sd := start_date.getD ""
      if strptimeYmd sd then
        if truthyStr end_date then
          let ed := end_date.getD ""
          if strptimeYmd ed then
            let diff : Int := (rataDie (ymdOf ed) : Int) - (rataDie (ymdOf sd) : Int)
            if diff > 7 then .error "Error: Date range cannot exceed 7 days"
            else if diff < 0 then .error "Error: end_date must be after start_date"
            else .ok [("start_date", sd), ("end_date", ed)]
          else .error "Error: end_date must be in YYYY-MM-DD format"
        else .ok [("start_date", sd)]
      else .error "Error: start_date must be in YYYY-MM-DD format"
    else .error "Error: start_date must provided to use the end_date"
  else .ok []

/-- What the `httpx` interaction of `get_neo_feed_definition` produced,
from the adapter's viewpoint (`NeoWs_tool.py`, lines 61-181):
a response whose body parsed as JSON, or a body that failed
`response.json()` (line 67 raises, landing in the generic
`except Exception`), or a timeout, or any other exception. -/
inductive NeoNetOutcome : Type
  | response (errorMessage : Option String) (statusCode : Nat)
      (formatted : Int → String)
  | jsonError (msg : String)
  | timeout
  | exc (msg : String)

/-- The request phase of `get_neo_feed_definition` (`NeoWs_tool.py`,
lines 61-181) applied to one interaction outcome. A body carrying
`error_message` returns `"API Error: <message>"` at line 71 — before
`raise_for_status` — so the duplicate `error_message` check inside the
`except httpx.HTTPStatusError` handler (lines 165-169) re-parses the
same body and can never fire; a non-2xx response without
`error_message` reaches the handler's status-code branches (400, 403,
generic). The success formatting of lines 77-160 (including the
empty-feed message) is the `formatted` abstraction, a function of
`limit_per_day`. -/
def neoRequestPhase (limit_per_day : Int) (out : NeoNetOutcome) : String :=
  match out with
  | .response errorMessage statusCode formatted =>
    match errorMessage with
    | some msg => "API Error: " ++ msg
    | none =>
      if 200 ≤ statusCode ∧ statusCode < 300 then formatted limit_per_day
      else if statusCode = 400 then
        "Error: Invalid date format or date range exceeds 7 days"
      else if statusCode = 403 then "Error: Invalid API key"
      else "Error: HTTP " ++ toString statusCode
  | .jsonError msg => "Error: " ++ msg
  | .timeout => "Error: Request timed out. Please try again."
  | .exc msg => "Error: " ++ msg

/-- `get_neo_feed_definition` (`NeoWs_tool.py`): validation prefix and
request-phase outcome handling embedded above; the network interaction
itself (and the success-formatting of the feed payload) is the oracle
`net`, keyed by the request URL. -/
def get_neo_feed_definition (net : String → NeoNetOutcome)
    (start_date end_date : Option String) (limit_per_day : Int) : String :=
  match neoValidateParams start_date end_date limit_per_day with
  | .error e => e
  | .ok params =>
    neoRequestPhase limit_per_day
      (net (NEOWS_API ++ paramUrl params ++ "api_key=" ++ NASA_API_KEY))

/-- Decimal value of a digit character list (most significant first). -/
def decimalValue (cs : List Char) : Nat :=
  cs.foldl (fun n c => n * 10 + (c.toNat - 48)) 0

/-- Model of Python `int(s)` on a decimal string: optional surrounding
whitespace, optional single sign, then at least one digit; `none` models
the `ValueError` raised otherwise. (Underscored or non-ASCII literals,
which `int` also accepts, are outside the modelled input space.) -/
def pyIntOfString (s : String) : Option Int :=
  let cs :=
    ((s.data.dropWhile Char.isWhitespace).reverse.dropWhile
      Char.isWhitespace).reverse
  let signed : Bool × List Char :=
    match cs with
    | '-' :: rest => (true, rest)
    | '+' :: rest => (false, rest)
    | rest => (false, rest)
  if !signed.2.isEmpty && signed.2.all Char.isDigit then
    let n : Int := Int.ofNat (decimalValue signed.2)
    some (if signed.1 then -n else n)
  else none

/-- `get_add` (`index.py`, lines 58-65): `return int(a)+int(b)`; a
non-numeric argument makes `int` raise `ValueError`, modelled as
`.error` carrying the `ValueError` message (first failing argument, as
`int(a)` is evaluated first). -/
def get_add (a b : String) : Except String Int :=
  match pyIntOfString a with
  | none => .error ("invalid literal for int() with base 10: '" ++ a ++ "'")
  | some x =>
    match pyIntOfString b with
    | none => .error ("invalid literal for int() with base 10: '" ++ b ++ "'")
    | some y => .ok (x + y)

/-- A content block as an adapter produces it: a `TextContent` or an
`ImageContent` (`mcp.types`). -/
inductive Block : Type
  | text (s : String)
  | image (data mimeType : String)
deriving DecidableEq, Repr

/-- One element of the content list `handle_call_tool` returns:
a `TextContent`, an `ImageContent`, or (faithfully to the
`return [result]` slip in the `get_image_analyze` branch, where `result`
is itself a list of blocks) a nested block list. -/
inductive ContentItem : Type
  | text (s : String)
  | image (data mimeType : String)
  | nested (items : List Block)
deriving DecidableEq, Repr

/-- Outcome of dispatching one `tools/call`: a protocol-level success
carrying content, or a protocol-level JSON-RPC error object. -/
inductive DispatchResult : Type
  | success (content : List ContentItem)
  | rpcError (code : Int) (message : String)
deriving DecidableEq, Repr

/-- Whether a dispatch outcome is a protocol-level RPC error. -/
def DispatchResult.isRpcError : DispatchResult → Bool
  | .rpcError _ _ => true
  | .success _ => false

/-- The oracle environment closing over everything outside the embedded
pure code: the `httpx` tails of the four embedded adapters and,
wholesale, the adapters no verified property inspects internally (each
is a total string- or content-valued function, by its catch-all
`except`). -/
structure AdapterEnv : Type where
  apodNet : String → String
  marsNet : String → String
  earthNet : String → Int → String
  neoNet : String → NeoNetOutcome
  gibsImage : String → String → Option String → Int → Int → String → String → String
  gibsLayers : String
  imgAnalyze : JVal → List Block

/-- The seven dispatch branches of `handle_call_tool`
(`server_old.py`, lines 189-244). -/
inductive ToolBranch : Type
  | apod | mars | neo | earth | gibs | gibsLayers | imgAnalyze
deriving DecidableEq, Repr

/-- The name test chain of `handle_call_tool` (`server_old.py`): which
branch a `tools/call` name reaches, `none` for the final `else` that
raises `ValueError(f"Unknown tool: {name}")`. -/
def resolveTool (name : String) : Option ToolBranch :=
  if name = "get_apod" then some .apod
  else if name = "get_mars_image" then some .mars
  else if name = "get_neo_feed" then some .neo
  else if name = "get_earth_image_tool" then some .earth
  else if name = "get_gibs_image" then some .gibs
  else if name = "get_gibs_layers" then some .gibsLayers
  else if name = "get_image_analyze" then some .imgAnalyze
  else none

/-- The result string of one adapter call inside `handle_call_tool`, for
the six branches that wrap a string into a single `TextContent`
(`server_old.py`, lines 189-236): argument extraction with the exact
`arguments.get` defaults of the source, then the adapter. The
`get_image_analyze` branch returns content blocks, not a string. -/
def branchResultString (env : AdapterEnv) (b : ToolBranch) (args : Args) :
    Option String :=
  match b with
  | .apod => some (get_astronomy_picture_of_the_day_tool_defnition env.apodNet
      (args.getStr? "date") (args.getStr? "start_date")
      (args.getStr? "end_date") (args.getInt? "count"))
  | .mars => some (get_mars_image_definition env.marsNet
      (args.getStr? "earth_date") (args.getInt? "sol")
      (args.getStr? "camera"))
  | .neo => some (get_neo_feed_definition env.neoNet
      (args.getStr? "start_date") (args.getStr? "end_date")
      (args.getIntD "limit_per_day" 2))
  | .earth => some (get_earth_image_definition env.earthNet
      (args.getStr? "earth_date") (args.getStr? "type")
      (args.getIntD "limit" 1))
  | .gibs => some (env.gibsImage
      (args.getStrD "layer" "MODIS_Terra_CorrectedReflectance_TrueColor")
      (args.getStrD "bbox" "-180,-90,180,90") (args.getStr? "date")
      (args.getIntD "width" 512) (args.getIntD "height" 512)
      (args.getStrD "format" "image/png")
      (args.getStrD "projection" "epsg4326"))
  | .gibsLayers => some env.gibsLayers
  | .imgAnalyze => none

/-- The body of one resolved branch of `handle_call_tool`: the six
string adapters are wrapped as one `TextContent`; the
`get_image_analyze` branch checks `if not image_url: raise
ValueError("image_url is required")` (the raise is caught by the
handler's own `except`, producing the `"Error: "`-prefixed text) and
otherwise returns `[result]` with `result` the adapter's block list. -/
def runBranch (env : AdapterEnv) (b : ToolBranch) (args : Args) :
    DispatchResult :=
  match b with
  | .imgAnalyze =>
    match args.get? "image_url" with
    | some v =>
      if v.truthy then .success [.nested (env.imgAnalyze v)]
      else .success [.text "Error: image_url is required"]
    | none => .success [.text "Error: image_url is required"]
  | _ =>
    match branchResultString env b args with
    | some s => .success [.text s]
    | none => .success []

/-- `handle_call_tool` (`server_old.py`, lines 180-249): resolve the
tool name through the `if/elif` chain and run its branch; the final
`else` raises `ValueError(f"Unknown tool: {name}")`, which the
surrounding `except Exception` immediately converts into a successful
response holding one `TextContent` `"Error: Unknown tool: <name>"`. -/
def handle_call_tool (env : AdapterEnv) (name : String) (args : Args) :
    DispatchResult :=
  match resolveTool name with
  | some b => runBranch env b args
  | none => .success [.text ("Error: Unknown tool: " ++ name)]

/-- The fields of one tool descriptor that the verified properties
consult: its name and the property/required lists of its
`inputSchema`. -/
structure ToolDecl : Type where
  name : String
  properties : List String
  required : List String
deriving DecidableEq, Repr

/-- `handle_list_tools` (`server_old.py`, lines 27-178): the seven tool
descriptors, in source order, with their schema property names and
`required` lists. -/
def handle_list_tools : List ToolDecl :=
  [ ⟨"get_apod", ["date", "start_date", "end_date", "count"], []⟩,
    ⟨"get_mars_image", ["earth_date", "sol", "camera"], []⟩,
    ⟨"get_neo_feed", ["start_date", "end_date", "limit_per_day"], []⟩,
    ⟨"get_earth_image_tool", ["earth_date", "type", "limit"], []⟩,
    ⟨"get_gibs_image",
      ["layer", "bbox", "date", "width", "height", "format", "projection"], []⟩,
    ⟨"get_gibs_layers", [], []⟩,
    ⟨"get_image_analyze", ["image_url"], ["image_url"]⟩ ]

/-- Body of an HTTP response of the `/mcp` POST handler: a serialized
JSON-RPC error envelope, a single JSON frame, or an SSE stream of
frames. `α` is the (opaque) type of protocol frames. -/
inductive HttpBody (α : Type) : Type
  | errEnv (code : Int) (message : String)
  | single (frame : α)
  | stream (frames : List α)
deriving DecidableEq, Repr

/-- An HTTP response: status code and body. -/
structure HttpResp (α : Type) : Type where
  status : Nat
  body : HttpBody α
deriving DecidableEq, Repr

/-- The POST path of `handle_mcp` (`server_old.py`, lines 253-309).
`bodyParse` is the outcome of `json.loads(body.decode())` (`.error`
carries `str(e)` of the raised exception); `process` is the
`server.run` loop collecting response frames (`.error` carries `str(e)`
if anything in the `try` block raises). Any exception inside the `try`
— invalid JSON included — lands in the single `except Exception`, which
answers status 500 with a JSON-RPC error envelope of code `-32603` and
message `"Internal error: <str(e)>"`. One frame is returned as a single
JSON body (Starlette `Response`, default status 200), any other frame
count as an SSE stream (status 200). -/
def handle_mcp_post {α : Type} (bodyParse : Except String α)
    (process : α → Except String (List α)) : HttpResp α :=
  match bodyParse with
  | .error e => ⟨500, .errEnv (-32603) ("Internal error: " ++ e)⟩
  | .ok req =>
    match process req with
    | .error e => ⟨500, .errEnv (-32603) ("Internal error: " ++ e)⟩
    | .ok [r] => ⟨200, .single r⟩
    | .ok rs => ⟨200, .stream rs⟩

/-- Modelled from the spec: the FastMCP dispatch layer for the `get_add`
tool of `index.py` (the FastMCP `tools/call` machinery is library code,
not part of this repository). Per the spec's `tools/call` response
shape and its uniform error surface, a successful adapter return is
serialized as exactly one text block holding the value's string form,
and an adapter exception is converted to one `"Error: "`-prefixed text
block. The `get_add` body itself is embedded from the source. -/
def fastmcp_call_get_add (a b : String) : DispatchResult :=
  match get_add a b with
  | .ok n => .success [.text (toString n)]
  | .error e => .success [.text ("Error: " ++ e)]

/-- A fully inert adapter environment (all oracles constant), used to
instantiate theorems at concrete inputs. -/
def nullEnv : AdapterEnv where
  apodNet := fun _ => ""
  marsNet := fun _ => ""
  earthNet := fun _ _ => ""
  neoNet := fun _ => .timeout
  gibsImage := fun _ _ _ _ _ _ _ => ""
  gibsLayers := ""
  imgAnalyze := fun _ => []

/-- An adapter environment whose NeoWs network oracle models NASA's
real upstream-rejection behaviour: a response whose JSON body carries
`error_message` (as the API answers an invalid key, with HTTP 403); the
adapter then returns at line 71 of `NeoWs_tool.py`, before
`raise_for_status`. -/
def neoApiErrorEnv : AdapterEnv :=
  { nullEnv with
    neoNet := fun _ =>
      .response (some "An invalid api_key was supplied") 403 (fun _ => "") }

/-- `p` is a prefix of `s`, computed on the character lists (kept
kernel-reducible, unlike `String.substrEq`). -/
def beginsWith (p s : String) : Bool :=
  List.isPrefixOf p.data s.data

theorem runBranch_of_resultString (env : AdapterEnv) (b : ToolBranch)
    (args : Args) (s : String) (h : branchResultString env b args = some s) :
    runBranch env b args = .success [.text s] := by
  cases b <;> first
    | (simp only [runBranch]; rw [h])
    | simp [branchResultString] at h

/-- C1 (counterexample): `tools/call` with the unknown name
`no_such_tool` does NOT produce the protocol-level RPC error `-32601`
the claim asserts: `handle_call_tool` raises
`ValueError("Unknown tool: no_such_tool")` inside its own
`try`/`except`, so the dispatcher answers with a protocol-level success
holding one `"Error: Unknown tool: ..."` text block. -/
theorem unknown_tool_not_rpc_error_counterexample :
    handle_call_tool nullEnv "no_such_tool" []
      = .success [.text "Error: Unknown tool: no_such_tool"]
    ∧ (handle_call_tool nullEnv "no_such_tool" []).isRpcError = false :=
  ⟨rfl, rfl⟩

/-- C1 (amended): for every `tools/call` whose name resolves to no
registered branch, the dispatcher returns a protocol-level success (not
an RPC error object) whose content is exactly one text block
`"Error: Unknown tool: <name>"`, which contains the unknown name. -/
theorem unknown_tool_success_error_text (env : AdapterEnv) (name : String)
    (args : Args) (h : resolveTool name = none) :
    handle_call_tool env name args
      = .success [.text ("Error: Unknown tool: " ++ name)]
    ∧ (handle_call_tool env name args).isRpcError = false
    ∧ ∃ p, "Error: Unknown tool: " ++ name = p ++ name := by
  have key : handle_call_tool env name args
      = .success [.text ("Error: Unknown tool: " ++ name)] := by
    unfold handle_call_tool
    rw [h]
  exact ⟨key, by rw [key]; rfl, ⟨"Error: Unknown tool: ", rfl⟩⟩

/-- C1 (witness): the amended statement instantiated at the unresolvable
name `mystery_tool` with empty arguments. -/
theorem unknown_tool_success_error_text_witness :
    handle_call_tool nullEnv "mystery_tool" []
      = .success [.text "Error: Unknown tool: mystery_tool"] :=
  (unknown_tool_success_error_text nullEnv "mystery_tool" [] (by decide)).1

/-- C2 (counterexample): `tools/call {name: get_neo_feed, arguments:
{}}` against an upstream that rejects the API key: the body carries
`error_message`, so the NeoWs adapter returns at line 71 with
`"API Error: An invalid api_key was supplied"` — an adapter failure
whose single text block does NOT begin with `"Error: "`, refuting the
claimed universal prefix. -/
theorem neo_api_error_prefix_counterexample :
    handle_call_tool neoApiErrorEnv "get_neo_feed" []
      = .success [.text "API Error: An invalid api_key was supplied"]
    ∧ beginsWith "Error: " "API Error: An invalid api_key was supplied"
      = false :=
  ⟨rfl, rfl⟩

/-- C2 (amended): for every `tools/call` whose name resolves to one of
the six string-returning adapter branches, if the adapter invocation
reports failure — an `"Error: "`-prefixed result string on every
validation and exception-handler channel, or an `"API Error: "`-prefixed
result on the NeoWs upstream-error paths — the dispatcher returns a
protocol-level success whose content is exactly one text block holding
that failure string verbatim. -/
theorem adapter_failure_single_text_block (env : AdapterEnv)
    (name : String) (args : Args) (b : ToolBranch) (s : String)
    (hres : resolveTool name = some b)
    (hstr : branchResultString env b args = some s)
    (_herr : beginsWith "Error: " s = true
      ∨ beginsWith "API Error: " s = true) :
    handle_call_tool env name args = .success [.text s] := by
  unfold handle_call_tool
  rw [hres]
  exact runBranch_of_resultString env b args s hstr

/-- C2 (witness): both failure prefixes exercised concretely —
`get_mars_image {sol: -5}` fails with an `"Error: "`-prefixed string,
and `get_neo_feed {limit_per_day: 1}` against the rejecting upstream
fails with an `"API Error: "`-prefixed string; each is wrapped as one
text block in a protocol-level success. -/
theorem adapter_failure_single_text_block_witness :
    handle_call_tool nullEnv "get_mars_image" [("sol", JVal.jint (-5))]
      = .success [.text "Error: sol must be a non-negative integer"]
    ∧ handle_call_tool neoApiErrorEnv "get_neo_feed"
        [("limit_per_day", JVal.jint 1)]
      = .success [.text "API Error: An invalid api_key was supplied"] :=
  ⟨adapter_failure_single_text_block nullEnv "get_mars_image"
      [("sol", JVal.jint (-5))] .mars
      "Error: sol must be a non-negative integer"
      (by decide) rfl (Or.inl (by decide)),
   adapter_failure_single_text_block neoApiErrorEnv "get_neo_feed"
      [("limit_per_day", JVal.jint 1)] .neo
      "API Error: An invalid api_key was supplied"
      (by decide) rfl (Or.inr (by decide))⟩

/-- C3 (counterexample): a POST body that is not valid JSON (parse
failure message as `json.loads` raises it) is answered by `handle_mcp`
with the JSON-RPC error code `-32603` — not `-32700` and not `-32600`
as the claim states — under HTTP status 500. -/
theorem malformed_json_code_counterexample :
    handle_mcp_post (α := Unit)
      (Except.error "Expecting value: line 1 column 1 (char 0)")
      (fun _ => Except.ok [])
      = ⟨500, .errEnv (-32603)
          "Internal error: Expecting value: line 1 column 1 (char 0)"⟩
    ∧ (((-32603 : Int) == -32700) = false)
    ∧ (((-32603 : Int) == -32600) = false) :=
  ⟨rfl, by decide, by decide⟩

/-- C3 (amended): every POST whose body fails JSON decoding is answered
with HTTP status 500 (never a 2xx) carrying a JSON-RPC error envelope
with code `-32603` and message `"Internal error: <parse failure>"`;
the codes `-32700`/`-32600` of the claim are not what the code emits. -/
theorem malformed_json_internal_error_500 {α : Type} (e : String)
    (process : α → Except String (List α)) :
    handle_mcp_post (Except.error e) process
      = ⟨500, .errEnv (-32603) ("Internal error: " ++ e)⟩ :=
  rfl

/-- C4: a `tools/call` for `get_image_analyze` — the tool whose schema
marks `image_url` required — with `image_url` absent from the arguments
mapping is answered with a protocol-level success whose content is the
tool-level error block `"Error: image_url is required"` (the branch's
`raise ValueError` is caught by the handler's own `except`), and never
with a protocol-level RPC error. -/
theorem missing_image_url_tool_tier_error (env : AdapterEnv) (args : Args)
    (h : args.get? "image_url" = none) :
    handle_call_tool env "get_image_analyze" args
      = .success [.text "Error: image_url is required"]
    ∧ (handle_call_tool env "get_image_analyze" args).isRpcError = false := by
  have key : handle_call_tool env "get_image_analyze" args
      = .success [.text "Error: image_url is required"] := by
    have hres : resolveTool "get_image_analyze" = some ToolBranch.imgAnalyze := by
      decide
    unfold handle_call_tool
    rw [hres]
    simp only [runBranch]
    rw [h]
  exact ⟨key, by rw [key]; rfl⟩

/-- C4 (witness): calling `get_image_analyze` with an empty arguments
mapping yields the tool-level error block as a protocol success. -/
theorem missing_image_url_tool_tier_error_witness :
    handle_call_tool nullEnv "get_image_analyze" []
      = .success [.text "Error: image_url is required"]
    ∧ (handle_call_tool nullEnv "get_image_analyze" []).isRpcError = false :=
  missing_image_url_tool_tier_error nullEnv [] rfl

/-- C5: the `tools/list` registry of `handle_list_tools` holds each
tool name exactly once (the name list has no duplicates), and every
listed name resolves to a registered branch of `handle_call_tool`
(never the unknown-tool branch). -/
theorem tools_list_unique_and_dispatchable :
    (handle_list_tools.map ToolDecl.name).Nodup
    ∧ handle_list_tools.all (fun t => (resolveTool t.name).isSome) = true := by
  decide

/-- C6: `tools/call {name: get_add, arguments: {a: "2", b: "3"}}`
returns a success whose content is exactly one text block `"5"`: the
`get_add` body (embedded from `index.py`) coerces the string-typed
arguments with `int(...)` and returns `5`, which the (spec-modelled)
FastMCP layer serializes as the single text block `"5"`. -/
theorem get_add_string_coercion_scenario :
    fastmcp_call_get_add "2" "3" = .success [.text "5"]
    ∧ get_add "2" "3" = .ok 5 :=
  ⟨rfl, rfl⟩

/-- C7: `tools/call {name: get_apod, arguments: {date: "2099-01-01",
start_date: "2099-01-01"}}` is a tool-tier failure: a protocol-level
success whose single text block is the adapter's mutual-exclusion
message, which contains the substring `"cannot be used with"`. -/
theorem apod_date_with_start_date_scenario (env : AdapterEnv) :
    handle_call_tool env "get_apod"
        [("date", JVal.jstr "2099-01-01"), ("start_date", JVal.jstr "2099-01-01")]
      = .success [.text "Error: date cannot be used with start_date or end_date"]
    ∧ ∃ p q, "Error: date cannot be used with start_date or end_date"
        = p ++ "cannot be used with" ++ q :=
  ⟨rfl, ⟨"Error: date ", " start_date or end_date", rfl⟩⟩

/-- C8: in the EPIC earth-image adapter, a limit below 1 yields the
tool-tier error `"Error: limit must be at least 1"`, while a limit
above 10 is silently capped to 10: the adapter behaves exactly as if
called with limit 10 (same request URL, same slice limit). -/
theorem earth_limit_floor_and_cap (net : String → Int → String)
    (earth_date ty : Option String) (limit : Int) :
    (limit < 1 → get_earth_image_definition net earth_date ty limit
      = "Error: limit must be at least 1")
    ∧ (limit > 10 → get_earth_image_definition net earth_date ty limit
      = get_earth_image_definition net earth_date ty 10) := by
  constructor
  · intro h
    simp only [get_earth_image_definition, earthUrlAndLimit, if_pos h]
  · intro h
    simp only [get_earth_image_definition, earthUrlAndLimit,
      if_neg (by omega : ¬ limit < 1), if_neg (by omega : ¬ (10 : Int) < 1),
      if_pos h, if_neg (by omega : ¬ (10 : Int) > 10)]

/-- C8 (witness): limit 0 is rejected with the floor error; limit 99
behaves exactly as limit 10. -/
theorem earth_limit_floor_and_cap_witness :
    get_earth_image_definition nullEnv.earthNet none none 0
      = "Error: limit must be at least 1"
    ∧ get_earth_image_definition nullEnv.earthNet none none 99
      = get_earth_image_definition nullEnv.earthNet none none 10 :=
  ⟨(earth_limit_floor_and_cap nullEnv.earthNet none none 0).1 (by decide),
   (earth_limit_floor_and_cap nullEnv.earthNet none none 99).2 (by decide)⟩

/-- C9: in the Mars-image adapter, a non-null, non-negative `sol` takes
precedence: the result is identical whether or not `earth_date` is also
supplied (earth_date is ignored without any error), and with `sol` given
and no camera the validated parameters are exactly the `sol` pair;
when both `sol` and `earth_date` are null the adapter defaults to
`sol=1000` (it behaves exactly as if called with `sol = 1000`). -/
theorem mars_sol_precedence_and_default (net : String → String)
    (ed : String) (sol : Int) (cam : Option String) :
    (0 ≤ sol → get_mars_image_definition net (some ed) (some sol) cam
      = get_mars_image_definition net none (some sol) cam)
    ∧ (0 ≤ sol → marsValidateParams (some ed) (some sol) none
      = .ok [("sol", toString sol)])
    ∧ get_mars_image_definition net none none cam
      = get_mars_image_definition net none (some 1000) cam := by
  refine ⟨fun _ => rfl, fun h => ?_, rfl⟩
  simp only [marsValidateParams, if_neg (by omega : ¬ sol < 0)]
  rfl

/-- C9 (witness): with `earth_date = "2024-01-01"` and `sol = 500` the
call is identical to the earth-date-free call and validates to the sole
`sol` parameter; the all-null call equals the `sol = 1000` call. -/
theorem mars_sol_precedence_and_default_witness :
    get_mars_image_definition nullEnv.marsNet (some "2024-01-01") (some 500) none
      = get_mars_image_definition nullEnv.marsNet none (some 500) none
    ∧ marsValidateParams (some "2024-01-01") (some 500) none
      = .ok [("sol", "500")]
    ∧ get_mars_image_definition nullEnv.marsNet none none none
      = get_mars_image_definition nullEnv.marsNet none (some 1000) none :=
  ⟨(mars_sol_precedence_and_default nullEnv.marsNet "2024-01-01" 500 none).1
      (by decide),
   (mars_sol_precedence_and_default nullEnv.marsNet "2024-01-01" 500 none).2.1
      (by decide),
   (mars_sol_precedence_and_default nullEnv.marsNet "2024-01-01" 500 none).2.2⟩

/-- C10 (counterexample): with non-null `count = 0` and non-null
`date = "2024-01-01"` (no start_date/end_date) the APOD adapter does
not proceed with the query at all: it rejects with the count-positivity
error, refuting the claim's clause that the query "then proceeds with
count alone". -/
theorem apod_count_zero_with_date_counterexample :
    get_astronomy_picture_of_the_day_tool_defnition (fun _ => "")
        (some "2024-01-01") none none (some 0)
      = "Error: count must be a positive integer"
    ∧ apodValidateParams (some "2024-01-01") none none (some 0)
      = .error "Error: count must be a positive integer" :=
  ⟨rfl, rfl⟩

/-- C10 (amended): with a non-null count and a non-null date but no
start_date and no end_date, the APOD adapter never returns a
mutual-exclusion error; when the count is positive the query proceeds
with count as the only request parameter (date is dropped); when the
count is not positive the adapter instead rejects with
`"Error: count must be a positive integer"`. -/
theorem apod_count_with_date_no_mutual_exclusion (d : String) (c : Int) :
    (apodValidateParams (some d) none none (some c)
      ≠ .error "Error: count cannot be used with date, start_date, or end_date")
    ∧ (apodValidateParams (some d) none none (some c)
      ≠ .error "Error: date cannot be used with start_date or end_date")
    ∧ (0 < c → apodValidateParams (some d) none none (some c)
      = .ok [("count", toString c)])
    ∧ (c ≤ 0 → apodValidateParams (some d) none none (some c)
      = .error "Error: count must be a positive integer") := by
  have hred : apodValidateParams (some d) none none (some c)
      = if c ≤ 0 then .error "Error: count must be a positive integer"
        else .ok [("count", toString c)] := by
    simp [apodValidateParams, truthyStr]
  rcases le_or_lt c 0 with hc | hc
  · rw [hred, if_pos hc]
    refine ⟨?_, ?_, fun h => absurd h (by omega), fun _ => rfl⟩
    · intro h
      exact absurd (Except.error.inj h) (by decide)
    · intro h
      exact absurd (Except.error.inj h) (by decide)
  · rw [hred, if_neg (by omega)]
    exact ⟨by simp, by simp, fun _ => rfl, fun h => absurd h (by omega)⟩

/-- C10 (witness): the amended statement at `date = "2024-06-01"` with
`count = 3` (query proceeds with count alone) and `count = 0`
(positivity rejection, not a mutual-exclusion error). -/
theorem apod_count_with_date_no_mutual_exclusion_witness :
    apodValidateParams (some "2024-06-01") none none (some 3)
      = .ok [("count", "3")]
    ∧ apodValidateParams (some "2024-06-01") none none (some 0)
      = .error "Error: count must be a positive integer" :=
  ⟨(apod_count_with_date_no_mutual_exclusion "2024-06-01" 3).2.2.1 (by decide),
   (apod_count_with_date_no_mutual_exclusion "2024-06-01" 0).2.2.2 (by decide)⟩
